import Mathlib

/-!
# Verification of the VG (verification game) reactor

Shallow embedding of `compute/src/vg.rs` from the `dispatcher` repository:
the data model (`Instance`, `Concern`, `Reaction`, `TransactionRequest`),
the decoded VG context (`VGCtxParsed`, `VGCtx`) and the decision logic of
`VG::react`.  External collaborators of `vg.rs` — the `serde_json` decoders
and the `Partition`/`MM` sub-protocol reactors — are parameters of the
embedding, collected in an `Env` record, so that every theorem quantifies
over their behavior.
-/

namespace Dispatcher

/-- Ethereum address (`ethereum_types::Address`), modelled as a natural
number; only equality of addresses is ever used by `vg.rs`. -/
abbrev Address := Nat

/-- 32-byte hash (`ethereum_types::H256`), modelled as a natural number;
`vg.rs` only carries these values around. -/
abbrev H256 := Nat

/-- 256-bit unsigned integer (`ethereum_types::U256`), modelled as a
natural number; `vg.rs` performs no arithmetic on these. -/
abbrev U256 := Nat

/-- A `Concern` pairs the contract address with the local user's address
(`concern.user_address` decides the role the agent plays). -/
structure Concern where
  contract_address : Address
  user_address : Address
deriving DecidableEq, Repr

/-- The fragment of `ethabi::Token` used by `vg.rs`: every emitted
transaction carries `vec![Token::Uint(instance.index)]`. -/
inductive Token where
  | Uint : U256 → Token
deriving DecidableEq, Repr

/-- `transaction::Strategy`: the submission policy tag. `vg.rs` only ever
uses `Simplest`. -/
inductive Strategy where
  | Simplest
deriving DecidableEq, Repr

/-- `transaction::TransactionRequest` as constructed by `vg.rs`. -/
structure TransactionRequest where
  concern : Concern
  value : U256
  function : String
  data : List Token
  strategy : Strategy
deriving DecidableEq, Repr

/-- `dispatcher::Reaction`: either no action this tick, or a fully
specified pending contract call. -/
inductive Reaction where
  | Idle
  | Transaction : TransactionRequest → Reaction
deriving DecidableEq, Repr

/-- The error values `VG::react` can produce.  `InvalidContractState msg`
embeds `Error::from(ErrorKind::InvalidContractState(msg))`; `Parse msg`
embeds a `serde_json` failure chained (`chain_err`) with the formatted
message `msg`. -/
inductive Error where
  | InvalidContractState : String → Error
  | Parse : String → Error
deriving DecidableEq, Repr

/-- `state::Instance`: one observed on-chain protocol instance, with its
ordered list of nested sub-instances. -/
inductive Instance where
  | mk : U256 → Concern → String → List Instance → Instance

/-- `instance.index`. -/
def Instance.index : Instance → U256
  | .mk i _ _ _ => i

/-- `instance.concern`. -/
def Instance.concern : Instance → Concern
  | .mk _ c _ _ => c

/-- `instance.json_data`: the opaque encoded state blob. -/
def Instance.json_data : Instance → String
  | .mk _ _ j _ => j

/-- `instance.sub_instances`. -/
def Instance.sub_instances : Instance → List Instance
  | .mk _ _ _ s => s

/-- `U256Array6`: the six packed uint values of the VG contract state
(`roundDuration`, `finalTime`, `timeOfLastMove`, `mmInstance`,
`partitionInstance`, `divergenceTime`), in that order. -/
structure U256Array6 where
  v0 : U256
  v1 : U256
  v2 : U256
  v3 : U256
  v4 : U256
  v5 : U256
deriving DecidableEq, Repr

/-- `VGCtxParsed`: the positional tuple produced by deserializing a VG
instance's `json_data`.  The `AddressField`/`Bytes32Field`/`String32Field`
wrappers of the source are serde plumbing; each field here is the wrapped
`value`. -/
structure VGCtxParsed where
  challenger : Address
  claimer : Address
  machine : Address
  initialHash : H256
  claimedFinalHash : H256
  hashBeforeDivergence : H256
  hashAfterDivergence : H256
  currentState : String
  uints : U256Array6
deriving DecidableEq, Repr

/-- `VGCtx`: the named-field context record. -/
structure VGCtx where
  challenger : Address
  claimer : Address
  machine : Address
  initial_hash : H256
  claimer_final_hash : H256
  hash_before_divergence : H256
  hash_after_divergence : H256
  current_state : String
  round_duration : U256
  final_time : U256
  time_of_last_move : U256
  mm_instance : U256
  partition_instance : U256
  divergence_time : U256
deriving DecidableEq, Repr

/-- The `From<VGCtxParsed> for VGCtx` conversion. -/
def VGCtx.ofParsed (parsed : VGCtxParsed) : VGCtx :=
  { challenger := parsed.challenger
    claimer := parsed.claimer
    machine := parsed.machine
    initial_hash := parsed.initialHash
    claimer_final_hash := parsed.claimedFinalHash
    hash_before_divergence := parsed.hashBeforeDivergence
    hash_after_divergence := parsed.hashAfterDivergence
    current_state := parsed.currentState
    round_duration := parsed.uints.v0
    final_time := parsed.uints.v1
    time_of_last_move := parsed.uints.v2
    mm_instance := parsed.uints.v3
    partition_instance := parsed.uints.v4
    divergence_time := parsed.uints.v5 }

/-- Modelled from the spec: `partition.rs` is not among the sources; the
spec says the Partition reactor exposes "a decodable `current_state`
string/enum" on its instances, and `vg.rs` reads nothing else from the
decoded partition context. -/
structure PartitionCtx where
  current_state : String
deriving DecidableEq, Repr

/-- Modelled from the spec: `mm.rs` is not among the sources; the spec
says the MM reactor exposes "a decodable `current_state` string/enum" on
its instances, and `vg.rs` reads nothing else from the decoded MM
context. -/
structure MMCtx where
  current_state : String
deriving DecidableEq, Repr

/-- The external collaborators of `VG::react`, over an arbitrary archive
type `A`: the three `serde_json` decoders (decode failure is `none`) and
the two sub-protocol reactors.  `mmReact` additionally takes the
256-bit divergence-time context, as in `MM::react(mm_instance, archive,
&ctx.divergence_time)`. -/
structure Env (A : Type) where
  parseVG : String → Option VGCtxParsed
  parsePartition : String → Option PartitionCtx
  parseMM : String → Option MMCtx
  partitionReact : Instance → A → Except Error Reaction
  mmReact : Instance → A → U256 → Except Error Reaction

namespace VG

/-- The `Role::Claimer` arm of the dispatch in `VG::react` (source lines
115–188).  `json_data` is the VG instance's own blob: the source embeds
it — not the sub-instance's — in the partition decode error message. -/
def claimerReact {A : Type} (env : Env A) (ctx : VGCtx) (json_data : String)
    (index : U256) (concern : Concern) (sub0 : Option Instance)
    (archive : A) : Except Error Reaction :=
  if ctx.current_state = "WaitPartition" then
    match sub0 with
    | none =>
        .error (.InvalidContractState
          ("There is no partition instance " ++ ctx.current_state))
    | some partition_inst =>
        match env.parsePartition partition_inst.json_data with
        | none =>
            .error (.Parse
              ("Could not parse partition instance json_data: " ++ json_data))
        | some partition_ctx =>
            if partition_ctx.current_state = "ChallengerWon" ∨
                partition_ctx.current_state = "ClaimerWon" then
              .ok (.Transaction
                { concern := concern
                  value := 0
                  function := "winByPartitionTimeout"
                  data := [Token.Uint index]
                  strategy := .Simplest })
            else if partition_ctx.current_state = "DivergenceFound" then
              .ok (.Transaction
                { concern := concern
                  value := 0
                  function := "startMachineRunChallenge"
                  data := [Token.Uint index]
                  strategy := .Simplest })
            else
              env.partitionReact partition_inst archive
  else if ctx.current_state = "WaitMemoryProveValues" then
    .ok .Idle
  else
    .error (.InvalidContractState
      ("Unknown current state " ++ ctx.current_state))

/-- The `Role::Challenger` arm of the dispatch in `VG::react` (source
lines 189–258).  `json_data` is the VG instance's own blob: the source
embeds it — not the sub-instance's — in the mm decode error message. -/
def challengerReact {A : Type} (env : Env A) (ctx : VGCtx)
    (json_data : String) (index : U256) (concern : Concern)
    (sub0 : Option Instance) (archive : A) : Except Error Reaction :=
  if ctx.current_state = "WaitPartition" then
    match sub0 with
    | none =>
        .error (.InvalidContractState
          ("There is no partition instance " ++ ctx.current_state))
    | some partition_inst => env.partitionReact partition_inst archive
  else if ctx.current_state = "WaitMemoryProveValues" then
    match sub0 with
    | none =>
        .error (.InvalidContractState
          ("There is no memory manager instance " ++ ctx.current_state))
    | some mm_inst =>
        match env.parseMM mm_inst.json_data with
        | none =>
            .error (.Parse
              ("Could not parse mm instance json_data: " ++ json_data))
        | some mm_ctx =>
            if mm_ctx.current_state = "WaitingProofs" then
              env.mmReact mm_inst archive ctx.divergence_time
            else if mm_ctx.current_state = "WaitingReplay" then
              .ok (.Transaction
                { concern := concern
                  value := 0
                  function := "settleVerificationGame"
                  data := [Token.Uint index]
                  strategy := .Simplest })
            else if mm_ctx.current_state = "FinishedReplay" then
              -- warn!("Strange state for vg and mm")
              .ok .Idle
            else
              -- warn!("Unknown state for vg and mm")
              .ok .Idle
  else
    .error (.InvalidContractState
      ("Unknown current state " ++ ctx.current_state))

/-- The body of `VG::react` as a function of the components the source
reads from the instance: its `json_data`, `index`, `concern`, and
`sub_instances.get(0)`.  Mirrors source lines 83–259: decode, terminal
short-circuit, role classification (claimer guard tested first), then the
per-role dispatch. -/
def reactCore {A : Type} (env : Env A) (json_data : String) (index : U256)
    (concern : Concern) (sub0 : Option Instance) (archive : A) :
    Except Error Reaction :=
  match env.parseVG json_data with
  | none =>
      .error (.Parse ("Could not parse vg instance json_data: " ++ json_data))
  | some parsed =>
      let ctx := VGCtx.ofParsed parsed
      if ctx.current_state = "FinishedClaimerWon" ∨
          ctx.current_state = "FinishedChallengerWon" then
        .ok .Idle
      else if concern.user_address = ctx.claimer then
        claimerReact env ctx json_data index concern sub0 archive
      else if concern.user_address = ctx.challenger then
        challengerReact env ctx json_data index concern sub0 archive
      else
        .error (.InvalidContractState "User is neither claimer nor challenger")

/-- `VG::react` (`impl DApp<()> for VG`, source lines 78–260). -/
def react {A : Type} (env : Env A) (inst : Instance) (archive : A) :
    Except Error Reaction :=
  reactCore env inst.json_data inst.index inst.concern
    (inst.sub_instances.get? 0) archive

end VG

/-! Concrete material used to evaluate the theorems on explicit inputs:
a demo VG context (claimer address 1, challenger address 2, divergence
time 77), demo decoders keyed on short tag strings, and stub sub-protocol
reactors with recognizable outputs. -/

/-- A demo parsed VG context with the given `currentState`. -/
def demoParsed (st : String) : VGCtxParsed :=
  { challenger := 2
    claimer := 1
    machine := 3
    initialHash := 10
    claimedFinalHash := 11
    hashBeforeDivergence := 12
    hashAfterDivergence := 13
    currentState := st
    uints := ⟨60, 100, 5, 8, 9, 77⟩ }

/-- A demo environment over archive type `Nat`.  The decoders recognize a
few tag strings; the stub sub-reactors ignore the archive and return
recognizable transactions. -/
def demoEnv : Env Nat :=
  { parseVG := fun s =>
      if s = "vgWaitPartition" then some (demoParsed "WaitPartition")
      else if s = "vgWaitMemory" then some (demoParsed "WaitMemoryProveValues")
      else if s = "vgFinishedClaimer" then some (demoParsed "FinishedClaimerWon")
      else if s = "vgFinishedChallenger" then
        some (demoParsed "FinishedChallengerWon")
      else if s = "vgBogus" then some (demoParsed "BogusState")
      else none
    parsePartition := fun s =>
      if s = "pChallengerWon" then some ⟨"ChallengerWon"⟩
      else if s = "pClaimerWon" then some ⟨"ClaimerWon"⟩
      else if s = "pDivergenceFound" then some ⟨"DivergenceFound"⟩
      else if s = "pRunning" then some ⟨"WaitingQuery"⟩
      else none
    parseMM := fun s =>
      if s = "mWaitingProofs" then some ⟨"WaitingProofs"⟩
      else if s = "mWaitingReplay" then some ⟨"WaitingReplay"⟩
      else if s = "mFinishedReplay" then some ⟨"FinishedReplay"⟩
      else if s = "mBogus" then some ⟨"BogusMMState"⟩
      else none
    partitionReact := fun sub _ =>
      .ok (.Transaction
        { concern := ⟨0, 0⟩
          value := 0
          function := "partitionStub"
          data := [Token.Uint sub.index]
          strategy := .Simplest })
    mmReact := fun sub _ t =>
      .ok (.Transaction
        { concern := ⟨0, 1⟩
          value := t
          function := "mmStub"
          data := [Token.Uint sub.index]
          strategy := .Simplest }) }

/-- A demo sub-instance (index 21) with the given `json_data`. -/
def subP (jd : String) : Instance := .mk 21 ⟨100, 7⟩ jd []

/-- A demo VG instance (index 5, contract address 100) with the given
`json_data`, sub-instances and local user address. -/
def demoInst (jd : String) (subs : List Instance) (user : Address) :
    Instance := .mk 5 ⟨100, user⟩ jd subs

/-- C1: for an instance decoding to a VG context in state "WaitPartition"
whose concern user address equals the context's claimer, with a first
sub-instance decoding to a Partition context: if the Partition state is
"ChallengerWon" or "ClaimerWon" the reactor emits the transaction
`winByPartitionTimeout` with data `[Uint index]`, value 0 and strategy
Simplest; if it is "DivergenceFound" it emits `startMachineRunChallenge`
with the same data, value and strategy. -/
theorem claimer_waitPartition_transactions {A : Type} (env : Env A)
    (inst partSub : Instance) (archive : A) (parsed : VGCtxParsed)
    (pctx : PartitionCtx)
    (hvg : env.parseVG inst.json_data = some parsed)
    (hstate : (VGCtx.ofParsed parsed).current_state = "WaitPartition")
    (hrole : inst.concern.user_address = (VGCtx.ofParsed parsed).claimer)
    (hsub : inst.sub_instances.get? 0 = some partSub)
    (hp : env.parsePartition partSub.json_data = some pctx) :
    ((pctx.current_state = "ChallengerWon" ∨
        pctx.current_state = "ClaimerWon") →
      VG.react env inst archive = .ok (.Transaction
        { concern := inst.concern
          value := 0
          function := "winByPartitionTimeout"
          data := [Token.Uint inst.index]
          strategy := .Simplest })) ∧
    (pctx.current_state = "DivergenceFound" →
      VG.react env inst archive = .ok (.Transaction
        { concern := inst.concern
          value := 0
          function := "startMachineRunChallenge"
          data := [Token.Uint inst.index]
          strategy := .Simplest })) := by
  constructor
  · rintro (h | h) <;>
      (unfold VG.react VG.reactCore VG.claimerReact
       simp only [hvg, hsub, hp]
       simp [hstate, hrole, h])
  · intro h
    unfold VG.react VG.reactCore VG.claimerReact
    simp only [hvg, hsub, hp]
    simp [hstate, hrole, h]

/-- Witness for C1: both transactions evaluated at explicit inputs. -/
theorem claimer_waitPartition_transactions_witness :
    VG.react demoEnv (demoInst "vgWaitPartition" [subP "pChallengerWon"] 1)
        0 = .ok (.Transaction
      { concern := ⟨100, 1⟩
        value := 0
        function := "winByPartitionTimeout"
        data := [Token.Uint 5]
        strategy := .Simplest }) ∧
    VG.react demoEnv (demoInst "vgWaitPartition" [subP "pDivergenceFound"] 1)
        0 = .ok (.Transaction
      { concern := ⟨100, 1⟩
        value := 0
        function := "startMachineRunChallenge"
        data := [Token.Uint 5]
        strategy := .Simplest }) :=
  ⟨(claimer_waitPartition_transactions demoEnv
      (demoInst "vgWaitPartition" [subP "pChallengerWon"] 1)
      (subP "pChallengerWon") 0 (demoParsed "WaitPartition")
      ⟨"ChallengerWon"⟩ rfl rfl rfl rfl rfl).1 (Or.inl rfl),
   (claimer_waitPartition_transactions demoEnv
      (demoInst "vgWaitPartition" [subP "pDivergenceFound"] 1)
      (subP "pDivergenceFound") 0 (demoParsed "WaitPartition")
      ⟨"DivergenceFound"⟩ rfl rfl rfl rfl rfl).2 rfl⟩

/-- C3: terminal absorption — an instance decoding to a VG context in
state "FinishedClaimerWon" or "FinishedChallengerWon" yields `Ok(Idle)`
regardless of every other field: the concern may match neither party and
the sub-instances may be absent or malformed, because the terminal check
precedes role classification and any sub-instance access. -/
theorem terminal_absorption {A : Type} (env : Env A) (inst : Instance)
    (archive : A) (parsed : VGCtxParsed)
    (hvg : env.parseVG inst.json_data = some parsed)
    (hstate : (VGCtx.ofParsed parsed).current_state = "FinishedClaimerWon" ∨
      (VGCtx.ofParsed parsed).current_state = "FinishedChallengerWon") :
    VG.react env inst archive = .ok .Idle := by
  unfold VG.react VG.reactCore
  simp only [hvg]
  rcases hstate with h | h <;> simp [h]

/-- Witness for C3: a finished instance whose user address (42) matches
neither party and whose sub-instance list is empty still yields Idle. -/
theorem terminal_absorption_witness :
    VG.react demoEnv (demoInst "vgFinishedClaimer" [] 42) 0 = .ok .Idle :=
  terminal_absorption demoEnv (demoInst "vgFinishedClaimer" [] 42) 0
    (demoParsed "FinishedClaimerWon") rfl (Or.inl rfl)

/-- C5: role exclusivity — for a non-terminal VG context, a concern user
address equal to neither the claimer nor the challenger yields the fatal
InvalidContractState error "User is neither claimer nor challenger" (so
never a Transaction). -/
theorem role_exclusivity {A : Type} (env : Env A) (inst : Instance)
    (archive : A) (parsed : VGCtxParsed)
    (hvg : env.parseVG inst.json_data = some parsed)
    (hterm : ¬((VGCtx.ofParsed parsed).current_state = "FinishedClaimerWon" ∨
      (VGCtx.ofParsed parsed).current_state = "FinishedChallengerWon"))
    (hcl : inst.concern.user_address ≠ (VGCtx.ofParsed parsed).claimer)
    (hch : inst.concern.user_address ≠ (VGCtx.ofParsed parsed).challenger) :
    VG.react env inst archive =
      .error (.InvalidContractState "User is neither claimer nor challenger")
    := by
  unfold VG.react VG.reactCore
  simp [hvg, hterm, hcl, hch]

/-- Witness for C5: user address 42 on a WaitPartition context with
claimer 1 and challenger 2. -/
theorem role_exclusivity_witness :
    VG.react demoEnv (demoInst "vgWaitPartition" [] 42) 0 =
      .error (.InvalidContractState "User is neither claimer nor challenger")
    :=
  role_exclusivity demoEnv (demoInst "vgWaitPartition" [] 42) 0
    (demoParsed "WaitPartition") rfl (by decide) (by decide) (by decide)

/-- C4: as Challenger (user address equals the challenger and not the
claimer) in state "WaitMemoryProveValues", when the first sub-instance
decodes to an MM context in state "WaitingReplay", the reactor emits the
transaction `settleVerificationGame` with data `[Uint index]`, value 0
and strategy Simplest. -/
theorem challenger_waitMemory_settle {A : Type} (env : Env A)
    (inst mmSub : Instance) (archive : A) (parsed : VGCtxParsed)
    (mctx : MMCtx)
    (hvg : env.parseVG inst.json_data = some parsed)
    (hstate : (VGCtx.ofParsed parsed).current_state = "WaitMemoryProveValues")
    (hnotcl : inst.concern.user_address ≠ (VGCtx.ofParsed parsed).claimer)
    (hrole : inst.concern.user_address = (VGCtx.ofParsed parsed).challenger)
    (hsub : inst.sub_instances.get? 0 = some mmSub)
    (hm : env.parseMM mmSub.json_data = some mctx)
    (hms : mctx.current_state = "WaitingReplay") :
    VG.react env inst archive = .ok (.Transaction
      { concern := inst.concern
        value := 0
        function := "settleVerificationGame"
        data := [Token.Uint inst.index]
        strategy := .Simplest }) := by
  unfold VG.react VG.reactCore VG.challengerReact
  simp only [hvg, hsub, hm]
  simp only [hstate, hnotcl]
  simp [hrole, hms]

/-- Witness for C4 at explicit inputs (challenger address 2). -/
theorem challenger_waitMemory_settle_witness :
    VG.react demoEnv (demoInst "vgWaitMemory" [subP "mWaitingReplay"] 2) 0 =
      .ok (.Transaction
        { concern := ⟨100, 2⟩
          value := 0
          function := "settleVerificationGame"
          data := [Token.Uint 5]
          strategy := .Simplest }) :=
  challenger_waitMemory_settle demoEnv
    (demoInst "vgWaitMemory" [subP "mWaitingReplay"] 2)
    (subP "mWaitingReplay") 0 (demoParsed "WaitMemoryProveValues")
    ⟨"WaitingReplay"⟩ rfl rfl (by decide) rfl rfl rfl rfl

/-- C7: unknown state rejection — a VG context whose current_state lies
outside the four enumerated states, with a user address matching the
claimer or the challenger, yields the fatal InvalidContractState error
"Unknown current state ..." naming that state, for either role. -/
theorem unknown_state_rejection {A : Type} (env : Env A) (inst : Instance)
    (archive : A) (parsed : VGCtxParsed)
    (hvg : env.parseVG inst.json_data = some parsed)
    (h1 : (VGCtx.ofParsed parsed).current_state ≠ "FinishedClaimerWon")
    (h2 : (VGCtx.ofParsed parsed).current_state ≠ "FinishedChallengerWon")
    (h3 : (VGCtx.ofParsed parsed).current_state ≠ "WaitPartition")
    (h4 : (VGCtx.ofParsed parsed).current_state ≠ "WaitMemoryProveValues")
    (hrole : inst.concern.user_address = (VGCtx.ofParsed parsed).claimer ∨
      inst.concern.user_address = (VGCtx.ofParsed parsed).challenger) :
    VG.react env inst archive = .error (.InvalidContractState
      ("Unknown current state " ++ (VGCtx.ofParsed parsed).current_state))
    := by
  unfold VG.react VG.reactCore VG.claimerReact VG.challengerReact
  simp only [hvg]
  rcases hrole with h | h
  · simp [h1, h2, h3, h4, h]
  · by_cases hc : inst.concern.user_address = (VGCtx.ofParsed parsed).claimer
    · simp [h1, h2, h3, h4, hc]
    · simp [h1, h2, h3, h4, hc, h]

/-- Witness for C7: state "BogusState" as claimer and as challenger. -/
theorem unknown_state_rejection_witness :
    VG.react demoEnv (demoInst "vgBogus" [] 1) 0 =
      .error (.InvalidContractState
        ("Unknown current state " ++ "BogusState")) ∧
    VG.react demoEnv (demoInst "vgBogus" [] 2) 0 =
      .error (.InvalidContractState
        ("Unknown current state " ++ "BogusState")) :=
  ⟨unknown_state_rejection demoEnv (demoInst "vgBogus" [] 1) 0
      (demoParsed "BogusState") rfl (by decide) (by decide) (by decide)
      (by decide) (Or.inl rfl),
   unknown_state_rejection demoEnv (demoInst "vgBogus" [] 2) 0
      (demoParsed "BogusState") rfl (by decide) (by decide) (by decide)
      (by decide) (Or.inr rfl)⟩

/-- C8: as Challenger in "WaitMemoryProveValues", an MM sub-context in
state "FinishedReplay" — or any state other than "WaitingProofs" and
"WaitingReplay" — yields `Ok(Idle)` (after a logged warning), not an
error, in contrast to VG's own fatal unknown-state handling. -/
theorem mm_unexpected_state_idle {A : Type} (env : Env A)
    (inst mmSub : Instance) (archive : A) (parsed : VGCtxParsed)
    (mctx : MMCtx)
    (hvg : env.parseVG inst.json_data = some parsed)
    (hstate : (VGCtx.ofParsed parsed).current_state = "WaitMemoryProveValues")
    (hnotcl : inst.concern.user_address ≠ (VGCtx.ofParsed parsed).claimer)
    (hrole : inst.concern.user_address = (VGCtx.ofParsed parsed).challenger)
    (hsub : inst.sub_instances.get? 0 = some mmSub)
    (hm : env.parseMM mmSub.json_data = some mctx)
    (h1 : mctx.current_state ≠ "WaitingProofs")
    (h2 : mctx.current_state ≠ "WaitingReplay") :
    VG.react env inst archive = .ok .Idle := by
  unfold VG.react VG.reactCore VG.challengerReact
  simp only [hvg, hsub, hm]
  simp only [hstate, hnotcl]
  by_cases h3 : mctx.current_state = "FinishedReplay" <;>
    simp [hrole, h1, h2, h3]

/-- Witness for C8: MM sub-states "FinishedReplay" and "BogusMMState"
both yield Idle. -/
theorem mm_unexpected_state_idle_witness :
    VG.react demoEnv (demoInst "vgWaitMemory" [subP "mFinishedReplay"] 2) 0 =
      .ok .Idle ∧
    VG.react demoEnv (demoInst "vgWaitMemory" [subP "mBogus"] 2) 0 =
      .ok .Idle :=
  ⟨mm_unexpected_state_idle demoEnv
      (demoInst "vgWaitMemory" [subP "mFinishedReplay"] 2)
      (subP "mFinishedReplay") 0 (demoParsed "WaitMemoryProveValues")
      ⟨"FinishedReplay"⟩ rfl rfl (by decide) rfl rfl rfl (by decide)
      (by decide),
   mm_unexpected_state_idle demoEnv
      (demoInst "vgWaitMemory" [subP "mBogus"] 2)
      (subP "mBogus") 0 (demoParsed "WaitMemoryProveValues")
      ⟨"BogusMMState"⟩ rfl rfl (by decide) rfl rfl rfl (by decide)
      (by decide)⟩

/-- C2: delegation is verbatim pass-through.  In the three delegating
situations — Claimer in "WaitPartition" with the Partition sub-state none
of "ChallengerWon"/"ClaimerWon"/"DivergenceFound"; Challenger in
"WaitPartition" unconditionally; Challenger in "WaitMemoryProveValues"
with the MM sub-state "WaitingProofs" — the result of `VG::react` is
exactly the sub-reactor's result on `sub_instances[0]` (MM receiving
`ctx.divergence_time` as its context), for every sub-reactor behavior,
errors included. -/
theorem delegation_passthrough {A : Type} (env : Env A) (inst sub : Instance)
    (archive : A) (parsed : VGCtxParsed)
    (hvg : env.parseVG inst.json_data = some parsed)
    (hsub : inst.sub_instances.get? 0 = some sub) :
    (∀ pctx : PartitionCtx,
      (VGCtx.ofParsed parsed).current_state = "WaitPartition" →
      inst.concern.user_address = (VGCtx.ofParsed parsed).claimer →
      env.parsePartition sub.json_data = some pctx →
      pctx.current_state ≠ "ChallengerWon" →
      pctx.current_state ≠ "ClaimerWon" →
      pctx.current_state ≠ "DivergenceFound" →
      VG.react env inst archive = env.partitionReact sub archive) ∧
    ((VGCtx.ofParsed parsed).current_state = "WaitPartition" →
      inst.concern.user_address ≠ (VGCtx.ofParsed parsed).claimer →
      inst.concern.user_address = (VGCtx.ofParsed parsed).challenger →
      VG.react env inst archive = env.partitionReact sub archive) ∧
    (∀ mctx : MMCtx,
      (VGCtx.ofParsed parsed).current_state = "WaitMemoryProveValues" →
      inst.concern.user_address ≠ (VGCtx.ofParsed parsed).claimer →
      inst.concern.user_address = (VGCtx.ofParsed parsed).challenger →
      env.parseMM sub.json_data = some mctx →
      mctx.current_state = "WaitingProofs" →
      VG.react env inst archive =
        env.mmReact sub archive (VGCtx.ofParsed parsed).divergence_time) := by
  refine ⟨fun pctx hstate hrole hp hn1 hn2 hn3 => ?_,
    fun hstate hncl hrole => ?_,
    fun mctx hstate hncl hrole hm hms => ?_⟩
  · unfold VG.react VG.reactCore VG.claimerReact
    simp only [hvg, hsub, hp]
    simp [hstate, hrole, hn1, hn2, hn3]
  · unfold VG.react VG.reactCore VG.challengerReact
    simp only [hvg, hsub]
    simp only [hstate, hncl]
    simp [hrole]
  · unfold VG.react VG.reactCore VG.challengerReact
    simp only [hvg, hsub, hm]
    simp only [hstate, hncl]
    simp [hrole, hms]

/-- Witness for C2: the three delegating situations evaluated at explicit
inputs; `demoEnv.mmReact` receives the context's divergence time 77. -/
theorem delegation_passthrough_witness :
    VG.react demoEnv (demoInst "vgWaitPartition" [subP "pRunning"] 1) 0 =
      demoEnv.partitionReact (subP "pRunning") 0 ∧
    VG.react demoEnv (demoInst "vgWaitPartition" [subP "pRunning"] 2) 0 =
      demoEnv.partitionReact (subP "pRunning") 0 ∧
    VG.react demoEnv (demoInst "vgWaitMemory" [subP "mWaitingProofs"] 2) 0 =
      demoEnv.mmReact (subP "mWaitingProofs") 0 77 :=
  ⟨(delegation_passthrough demoEnv
      (demoInst "vgWaitPartition" [subP "pRunning"] 1) (subP "pRunning") 0
      (demoParsed "WaitPartition") rfl rfl).1 ⟨"WaitingQuery"⟩ rfl rfl rfl
      (by decide) (by decide) (by decide),
   (delegation_passthrough demoEnv
      (demoInst "vgWaitPartition" [subP "pRunning"] 2) (subP "pRunning") 0
      (demoParsed "WaitPartition") rfl rfl).2.1 rfl (by decide) rfl,
   (delegation_passthrough demoEnv
      (demoInst "vgWaitMemory" [subP "mWaitingProofs"] 2)
      (subP "mWaitingProofs") 0 (demoParsed "WaitMemoryProveValues")
      rfl rfl).2.2 ⟨"WaitingProofs"⟩ rfl (by decide) rfl rfl rfl⟩

/-- C6 counterexample: as Claimer in "WaitMemoryProveValues" with an
empty `sub_instances` sequence, the reactor returns `Ok(Idle)` — it never
looks at `sub_instances` on that path — and not the InvalidContractState
"no such instance" error the claim requires for either role in that
state. -/
theorem missing_sub_claimer_memory_not_error :
    VG.react demoEnv (demoInst "vgWaitMemory" [] 1) 0 = .ok .Idle ∧
    ∀ msg : String, VG.react demoEnv (demoInst "vgWaitMemory" [] 1) 0 ≠
      .error (.InvalidContractState msg) := by
  have e : VG.react demoEnv (demoInst "vgWaitMemory" [] 1) 0 = .ok .Idle :=
    rfl
  exact ⟨e, fun msg h => Except.noConfusion (e.symm.trans h)⟩

/-- C6 amended: with an empty `sub_instances` sequence, the reactor
returns the InvalidContractState "no such instance" error in the three
sub-instance-reading situations — "WaitPartition" for either role
(partition message) and "WaitMemoryProveValues" as Challenger (memory
manager message) — while as Claimer in "WaitMemoryProveValues" it returns
`Ok(Idle)` without touching `sub_instances`; in none of these does it
return a Transaction. -/
theorem missing_sub_instance_amended {A : Type} (env : Env A)
    (inst : Instance) (archive : A) (parsed : VGCtxParsed)
    (hvg : env.parseVG inst.json_data = some parsed)
    (hempty : inst.sub_instances = []) :
    ((VGCtx.ofParsed parsed).current_state = "WaitPartition" →
      (inst.concern.user_address = (VGCtx.ofParsed parsed).claimer ∨
        inst.concern.user_address = (VGCtx.ofParsed parsed).challenger) →
      VG.react env inst archive = .error (.InvalidContractState
        ("There is no partition instance " ++
          (VGCtx.ofParsed parsed).current_state))) ∧
    ((VGCtx.ofParsed parsed).current_state = "WaitMemoryProveValues" →
      inst.concern.user_address ≠ (VGCtx.ofParsed parsed).claimer →
      inst.concern.user_address = (VGCtx.ofParsed parsed).challenger →
      VG.react env inst archive = .error (.InvalidContractState
        ("There is no memory manager instance " ++
          (VGCtx.ofParsed parsed).current_state))) ∧
    ((VGCtx.ofParsed parsed).current_state = "WaitMemoryProveValues" →
      inst.concern.user_address = (VGCtx.ofParsed parsed).claimer →
      VG.react env inst archive = .ok .Idle) := by
  refine ⟨fun hstate hrole => ?_, fun hstate hncl hrole => ?_,
    fun hstate hrole => ?_⟩
  · unfold VG.react VG.reactCore VG.claimerReact VG.challengerReact
    simp only [hvg, hempty]
    rcases hrole with h | h
    · simp [hstate, h]
    · by_cases hc :
        inst.concern.user_address = (VGCtx.ofParsed parsed).claimer
      · simp [hstate, hc]
      · simp only [hstate, hc]
        simp [h]
  · unfold VG.react VG.reactCore VG.challengerReact
    simp only [hvg, hempty]
    simp only [hstate, hncl]
    simp [hrole]
  · unfold VG.react VG.reactCore VG.claimerReact
    simp only [hvg, hempty]
    simp [hstate, hrole]

/-- Witness for the amended C6: the three error situations and the
Claimer/"WaitMemoryProveValues" Idle at explicit inputs. -/
theorem missing_sub_instance_amended_witness :
    VG.react demoEnv (demoInst "vgWaitPartition" [] 1) 0 =
      .error (.InvalidContractState
        ("There is no partition instance " ++ "WaitPartition")) ∧
    VG.react demoEnv (demoInst "vgWaitPartition" [] 2) 0 =
      .error (.InvalidContractState
        ("There is no partition instance " ++ "WaitPartition")) ∧
    VG.react demoEnv (demoInst "vgWaitMemory" [] 2) 0 =
      .error (.InvalidContractState
        ("There is no memory manager instance " ++
          "WaitMemoryProveValues")) ∧
    VG.react demoEnv (demoInst "vgWaitMemory" [] 1) 0 = .ok .Idle :=
  ⟨(missing_sub_instance_amended demoEnv (demoInst "vgWaitPartition" [] 1)
      0 (demoParsed "WaitPartition") rfl rfl).1 rfl (Or.inl rfl),
   (missing_sub_instance_amended demoEnv (demoInst "vgWaitPartition" [] 2)
      0 (demoParsed "WaitPartition") rfl rfl).1 rfl (Or.inr rfl),
   (missing_sub_instance_amended demoEnv (demoInst "vgWaitMemory" [] 2)
      0 (demoParsed "WaitMemoryProveValues") rfl rfl).2.1 rfl (by decide)
      rfl,
   (missing_sub_instance_amended demoEnv (demoInst "vgWaitMemory" [] 1)
      0 (demoParsed "WaitMemoryProveValues") rfl rfl).2.2 rfl rfl⟩

/-- C9, the code evaluated at a failing input: when the Partition
sub-instance's `json_data` ("garbage") fails to decode, the error does
name the protocol ("partition instance") but embeds the parent VG
instance's `json_data` ("vgWaitPartition") — source line 131 formats
`instance.json_data`, not `partition_instance.json_data` — so it does not
carry the exact string that failed to parse. -/
theorem decode_error_carries_parent_payload :
    VG.react demoEnv (demoInst "vgWaitPartition" [subP "garbage"] 1) 0 =
      .error (.Parse ("Could not parse partition instance json_data: " ++
        "vgWaitPartition")) ∧
    (subP "garbage").json_data = "garbage" ∧
    ("garbage" : String) ≠ "vgWaitPartition" :=
  ⟨rfl, rfl, by decide⟩

/-- Helper for C10: `reactCore` depends on the archive value only through
the behavior of the two sub-protocol reactors. -/
theorem reactCore_archive_invariant {A : Type} (env : Env A) (a1 a2 : A)
    (jd : String) (ix : U256) (c : Concern) (s0 : Option Instance)
    (hpa : ∀ s, env.partitionReact s a1 = env.partitionReact s a2)
    (hma : ∀ s t, env.mmReact s a1 t = env.mmReact s a2 t) :
    VG.reactCore env jd ix c s0 a1 = VG.reactCore env jd ix c s0 a2 := by
  unfold VG.reactCore VG.claimerReact VG.challengerReact
  simp only [hpa, hma]

/-- C10: noninterference on unread inputs — two instance snapshots that
agree on `json_data`, `index`, `concern` and `sub_instances[0]` produce
equal results, for any two archive values, as long as the sub-reactors
behave the same under both archives; sub-instances past position 0 and
the archive on non-delegating paths never influence the result, and the
function is deterministic on a fixed snapshot. -/
theorem react_noninterference {A : Type} (env : Env A) (a1 a2 : A)
    (i1 i2 : Instance)
    (hj : i1.json_data = i2.json_data)
    (hi : i1.index = i2.index)
    (hc : i1.concern = i2.concern)
    (hs : i1.sub_instances.get? 0 = i2.sub_instances.get? 0)
    (hpa : ∀ s, env.partitionReact s a1 = env.partitionReact s a2)
    (hma : ∀ s t, env.mmReact s a1 t = env.mmReact s a2 t) :
    VG.react env i1 a1 = VG.react env i2 a2 := by
  unfold VG.react
  rw [hj, hi, hc, hs]
  exact reactCore_archive_invariant env a1 a2 i2.json_data i2.index
    i2.concern (i2.sub_instances.get? 0) hpa hma

/-- Witness for C10: a snapshot with one sub-instance versus one with an
extra second sub-instance, under two different archive values (the demo
sub-reactors ignore the archive). -/
theorem react_noninterference_witness :
    VG.react demoEnv (demoInst "vgWaitPartition" [subP "pRunning"] 1) 0 =
      VG.react demoEnv
        (Instance.mk 5 ⟨100, 1⟩ "vgWaitPartition"
          [subP "pRunning", subP "junk"]) 1 :=
  react_noninterference demoEnv 0 1
    (demoInst "vgWaitPartition" [subP "pRunning"] 1)
    (Instance.mk 5 ⟨100, 1⟩ "vgWaitPartition" [subP "pRunning", subP "junk"])
    rfl rfl rfl rfl (fun _ => rfl) (fun _ _ => rfl)

end Dispatcher
